import Mathlib

/-!
Shallow embedding of `src/lambda_handler.py`, the API Gateway → AgentCore
request adapter.  Python/JSON values are modeled by `JValue`; the ambient
library collaborators (`json.loads`, `base64.b64decode`, UTF-8 decoding of
byte strings, `os.environ`, and the boto3 client's `invoke_agent` method)
are fields of an environment record `Env`, since they are stdlib/SDK code
rather than repository code.  `json.dumps`, whose exact output the
repository's responses expose, is implemented concretely (`json_dumps`),
matching CPython's default formatting (item separator `, `, key separator
`: `, `ensure_ascii` escaping).  The handler itself is translated
clause by clause from the source; exceptions are modeled by `Except` and
the top-level `try/except` by the outer match in `lambda_handler`.  The
handler additionally returns the list of `(agentRuntimeArn, inputText)`
pairs passed to `invoke_agent`, so that "invokes the remote client with X"
and "does not invoke the remote client" are stateable.
-/

set_option autoImplicit false

namespace LambdaAdapter

/-- Python/JSON values as the handler manipulates them.  Numbers are
modeled as integers (no property under study involves a non-integer
numeral). -/
inductive JValue where
  | null : JValue
  | bool (b : Bool) : JValue
  | num (n : Int) : JValue
  | str (s : String) : JValue
  | arr (elems : List JValue) : JValue
  | obj (entries : List (String × JValue)) : JValue

/-- Python truthiness (`if not prompt`, `if event.get('isBase64Encoded', False)`):
`None`, `False`, `0`, `''`, `[]` and `\x7b\x7d` are falsy. -/
def pyTruthy : JValue → Bool
  | .null => false
  | .bool b => b
  | .num n => n != 0
  | .str s => !s.isEmpty
  | .arr elems => !elems.isEmpty
  | .obj entries => !entries.isEmpty

/-- Models `d.get(k)` on a Python value: returns `None` when the key is absent,
raises `AttributeError` when the value is not a dict (e.g. the JSON body
parsed to a list or a scalar). -/
def pyGet : JValue → String → Except String JValue
  | .obj entries, k => .ok ((entries.lookup k).getD .null)
  | _, _ => .error "object has no attribute \x27get\x27"

/-- Models `d.get(k, default)` on a Python value. -/
def pyGetD : JValue → String → JValue → Except String JValue
  | .obj entries, k, d => .ok ((entries.lookup k).getD d)
  | _, _, _ => .error "object has no attribute \x27get\x27"

/-- Argument check done by `json.loads` / `base64.b64decode`: both raise a
`TypeError` unless given a string (or bytes, which the embedding also
renders as `String`). -/
def pyStrArg : JValue → Except String String
  | .str s => .ok s
  | _ => .error "the JSON object must be str, bytes or bytearray"

/-- Lowercase hexadecimal digit, for `\uXXXX` escapes. -/
def hexDigit (n : Nat) : Char :=
  if n < 10 then Char.ofNat (48 + n) else Char.ofNat (87 + n)

/-- Four lowercase hexadecimal digits, as in CPython's `\uXXXX` escapes. -/
def toHex4 (n : Nat) : String :=
  String.mk [hexDigit (n / 4096 % 16), hexDigit (n / 256 % 16),
             hexDigit (n / 16 % 16), hexDigit (n % 16)]

/-- CPython `json` string escaping of one character.  With
`ensureAscii = true` every character outside `0x20`–`0x7e` is escaped
(astral characters as a surrogate pair); with `ensureAscii = false` only
`"`, `\`, and control characters below `0x20` are escaped. -/
def escapeChar (ensureAscii : Bool) (c : Char) : String :=
  if c = '"' then "\\\""
  else if c = '\\' then "\\\\"
  else if c = '\n' then "\\n"
  else if c = '\r' then "\\r"
  else if c = '\t' then "\\t"
  else if c.toNat = 8 then "\\b"
  else if c.toNat = 12 then "\\f"
  else if c.toNat < 32 then "\\u" ++ toHex4 c.toNat
  else if ensureAscii && 126 < c.toNat then
    if c.toNat ≤ 65535 then "\\u" ++ toHex4 c.toNat
    else "\\u" ++ toHex4 (55296 + (c.toNat - 65536) / 1024) ++
         "\\u" ++ toHex4 (56320 + (c.toNat - 65536) % 1024)
  else String.singleton c

/-- CPython `json` escaping of a whole string body. -/
def jsonEscape (ensureAscii : Bool) (s : String) : String :=
  String.join (s.data.map (escapeChar ensureAscii))

/-- A JSON string literal as CPython `json.dumps` renders it. -/
def dumpsStr (ensureAscii : Bool) (s : String) : String :=
  "\"" ++ jsonEscape ensureAscii s ++ "\""

mutual

/-- Models `json.dumps` with default separators (`, ` and `: `); `ensureAscii`
mirrors the `ensure_ascii` keyword (the handler passes
`ensure_ascii=False` on the success body only). -/
def json_dumps (ensureAscii : Bool) : JValue → String
  | .null => "null"
  | .bool true => "true"
  | .bool false => "false"
  | .num n => toString n
  | .str s => dumpsStr ensureAscii s
  | .arr elems => "[" ++ String.intercalate ", " (dumpsList ensureAscii elems) ++ "]"
  | .obj entries => "\x7b" ++ String.intercalate ", " (dumpsEntries ensureAscii entries) ++ "\x7d"

/-- Serialization of the elements of a JSON array. -/
def dumpsList (ensureAscii : Bool) : List JValue → List String
  | [] => []
  | v :: vs => json_dumps ensureAscii v :: dumpsList ensureAscii vs

/-- Serialization of the `"key": value` items of a JSON object. -/
def dumpsEntries (ensureAscii : Bool) : List (String × JValue) → List String
  | [] => []
  | (k, v) :: kvs => (dumpsStr ensureAscii k ++ ": " ++ json_dumps ensureAscii v) :: dumpsEntries ensureAscii kvs

end

/-- The dict boto3 puts under the `'chunk'` key of a streaming event: it
may or may not carry a `'bytes'` entry (`event['chunk'].get('bytes', b'')`). -/
structure ChunkDict where
  bytes : Option (List Nat)

/-- One fragment of the streamed `'completion'`: a dict that may or may
not carry a `'chunk'` key (`if 'chunk' in event`). -/
structure Fragment where
  chunk : Option ChunkDict

/-- The value returned by `client.invoke_agent`: a dict that may carry a
`'completion'` key holding the fragment stream (`if 'completion' in
response`), plus any other fields, which the handler never reads. -/
structure RemoteResponse where
  completion : Option (List Fragment)
  rest : List (String × JValue)

/-- The library collaborators the handler calls, as pure fallible
functions: `os.environ[k]` (`environ`, erroring like `KeyError`),
`base64.b64decode`, `json.loads`, `bytes.decode('utf-8')` (`utf8Decode`,
on a byte list), and the boto3 client's
`invoke_agent(agentRuntimeArn, inputText)`. -/
structure Env where
  environ : String → Except String String
  b64decode : String → Except String String
  jsonLoads : String → Except String JValue
  utf8Decode : List Nat → Except String String
  invoke : String → String → Except String RemoteResponse

/-- Models line 13 of the source: the module-level
`boto3.client('bedrock-agent-runtime', region_name=os.environ['AWS_REGION'])`.
Its observable is the region lookup: a missing `AWS_REGION` raises
at import time, before any request is handled.  The constructed client's
behavior is the `invoke` field of `Env`. -/
def client (environ : String → Except String String) : Except String String :=
  environ "AWS_REGION"

/-- Models lines 29–36: decode the request payload from the event.  With a
`'body'` key, base64-decode first when `event.get('isBase64Encoded',
False)` is truthy, then JSON-parse; without one, the event itself is the
payload (direct invocation). -/
def parse_body (env : Env) (event : List (String × JValue)) : Except String JValue :=
  match event.lookup "body" with
  | some bodyVal =>
    if pyTruthy ((event.lookup "isBase64Encoded").getD (.bool false)) then do
      let s ← pyStrArg bodyVal
      let decoded ← env.b64decode s
      env.jsonLoads decoded
    else do
      let s ← pyStrArg bodyVal
      env.jsonLoads s
  | none => .ok (.obj event)

/-- Models lines 72–75, the body of the streaming loop: a fragment without
a `'chunk'` key, or whose chunk's `'bytes'` default to `b''` or are empty,
leaves the accumulator unchanged; a non-empty chunk is UTF-8 decoded and
JSON-parsed, overwriting the accumulator. -/
def drainStep (env : Env) (result : JValue) (frag : Fragment) : Except String JValue :=
  match frag.chunk with
  | some ch =>
    if (ch.bytes.getD []).isEmpty then .ok result
    else do
      let s ← env.utf8Decode (ch.bytes.getD [])
      env.jsonLoads s
  | none => .ok result

/-- Models lines 68–75: fold the streaming loop over the fragments,
starting from `result = \x7b\x7d`. -/
def drain (env : Env) (frags : List Fragment) : Except String JValue :=
  List.foldlM (drainStep env) (.obj []) frags

/-- The outbound response dict `\x7bstatusCode, headers, body\x7d`. -/
structure HttpResponse where
  statusCode : Nat
  headers : List (String × String)
  body : String
deriving DecidableEq

/-- The default `allowed_tools` string from line 48 of the source. -/
def defaultAllowedTools : String :=
  "Bash,Read,Write,Replace,Search,List,WebFetch,AskFollowup"

/-- The AgentCore payload construction of lines 51–57. -/
def agentcore_payload (prompt permission_mode allowed_tools : JValue) : JValue :=
  .obj [("input", .obj [("prompt", prompt),
                        ("permission_mode", permission_mode),
                        ("allowed_tools", allowed_tools)])]

/-- The body of the `try` block (lines 28–85): everything in
`lambda_handler` up to the `except` clause.  Returns the response or the
pending exception's message, paired with the list of
`(agentRuntimeArn, inputText)` invocations issued to the remote client. -/
def handler_core (env : Env) (event : List (String × JValue)) :
    Except String HttpResponse × List (String × String) :=
  match parse_body env event with
  | .error e => (.error e, [])
  | .ok body =>
    match pyGet body "prompt" with
    | .error e => (.error e, [])
    | .ok prompt =>
      if !pyTruthy prompt then
        (.ok { statusCode := 400,
               headers := [("Content-Type", "application/json")],
               body := json_dumps true (.obj [("error", .str "Missing required field: prompt")]) }, [])
      else
        match pyGetD body "permission_mode" (.str "acceptEdits") with
        | .error e => (.error e, [])
        | .ok permission_mode =>
          match pyGetD body "allowed_tools" (.str defaultAllowedTools) with
          | .error e => (.error e, [])
          | .ok allowed_tools =>
            match env.environ "AGENTCORE_RUNTIME_ARN" with
            | .error e => (.error e, [])
            | .ok runtime_arn =>
              match env.invoke runtime_arn (json_dumps true (agentcore_payload prompt permission_mode allowed_tools)) with
              | .error e =>
                (.error e, [(runtime_arn, json_dumps true (agentcore_payload prompt permission_mode allowed_tools))])
              | .ok response =>
                match (match response.completion with
                       | some frags => drain env frags
                       | none => .ok (.obj [])) with
                | .error e =>
                  (.error e, [(runtime_arn, json_dumps true (agentcore_payload prompt permission_mode allowed_tools))])
                | .ok result =>
                  (.ok { statusCode := 200,
                         headers := [("Content-Type", "application/json"),
                                     ("Access-Control-Allow-Origin", "*")],
                         body := json_dumps false result },
                   [(runtime_arn, json_dumps true (agentcore_payload prompt permission_mode allowed_tools))])

/-- Models lines 16–93: `lambda_handler`, with the `except Exception`
clause of lines 87–93 wrapping `handler_core` so that every pending
exception becomes the 500 response. -/
def lambda_handler (env : Env) (event : List (String × JValue)) :
    HttpResponse × List (String × String) :=
  match handler_core env event with
  | (.ok r, tr) => (r, tr)
  | (.error e, tr) =>
    ({ statusCode := 500,
       headers := [("Content-Type", "application/json")],
       body := json_dumps true (.obj [("error", .str e)]) }, tr)

/-- Specification-side view of one fragment: the bytes of its chunk when
the fragment carries a chunk with non-empty bytes, and `none` otherwise. -/
def fragBytes (f : Fragment) : Option (List Nat) :=
  match f.chunk with
  | some ch => if (ch.bytes.getD []).isEmpty then none else some (ch.bytes.getD [])
  | none => none

/-- Specification-side view of a fragment stream: the byte chunks of the
fragments carrying non-empty chunks, in order. -/
def nonEmptyChunks (frags : List Fragment) : List (List Nat) :=
  frags.filterMap fragBytes

/-- The byte list of an ASCII string, for concrete streamed chunks. -/
def strBytes (s : String) : List Nat :=
  s.data.map Char.toNat

/-- A concrete executable UTF-8 decoder for test environments: decodes
pure-ASCII byte lists and rejects everything else. -/
def asciiDecode (bs : List Nat) : Except String String :=
  if bs.all (fun b => b < 128) then .ok (String.mk (bs.map Char.ofNat))
  else .error "UnicodeDecodeError"

/-- A concrete executable `json.loads` stand-in for test environments:
a finite table of the documents the witnesses exercise. -/
def tableLoads (s : String) : Except String JValue :=
  if s = "\x7b\"prompt\": \"hi\"\x7d" then .ok (.obj [("prompt", .str "hi")])
  else if s = "\x7b\"result\": \"done\"\x7d" then .ok (.obj [("result", .str "done")])
  else if s = "\x7b\x7d" then .ok (.obj [])
  else .error "Expecting value: line 1 column 1 (char 0)"

/-- A concrete executable `base64.b64decode` stand-in for test
environments: knows the base64 encoding of the payload the witnesses use. -/
def tableB64 (s : String) : Except String String :=
  if s = "eyJwcm9tcHQiOiAiaGkifQ==" then .ok "\x7b\"prompt\": \"hi\"\x7d"
  else .error "Invalid base64-encoded string"

/-- A concrete environment table for `os.environ`: the two variables the
source reads are set. -/
def tableEnviron (k : String) : Except String String :=
  if k = "AWS_REGION" then .ok "us-west-2"
  else if k = "AGENTCORE_RUNTIME_ARN" then .ok "arn:aws:bedrock:test"
  else .error ("\x27" ++ k ++ "\x27")

/-- A concrete environment whose remote client returns `invokeResult`. -/
def mkEnv (invokeResult : Except String RemoteResponse) : Env :=
  { environ := tableEnviron
    b64decode := tableB64
    jsonLoads := tableLoads
    utf8Decode := asciiDecode
    invoke := fun _ _ => invokeResult }

/-- The basic concrete environment: the remote client answers with a
response that has no `'completion'` key. -/
def testEnv : Env :=
  mkEnv (.ok { completion := none, rest := [] })

/-- A concrete environment whose `os.environ` lacks
`AGENTCORE_RUNTIME_ARN` (but has `AWS_REGION`). -/
def noArnEnv : Env :=
  { testEnv with
    environ := fun k =>
      if k = "AWS_REGION" then .ok "us-west-2"
      else .error ("\x27" ++ k ++ "\x27") }

/-- The invocation trace is unaffected by the `except` wrapper: the
handler reports exactly the remote calls the `try` body issued. -/
theorem lambda_handler_trace (env : Env) (event : List (String × JValue)) :
    (lambda_handler env event).2 = (handler_core env event).2 := by
  unfold lambda_handler
  rcases h : handler_core env event with ⟨a, tr⟩
  cases a <;> rfl

/-- Every response the `try` body itself returns is either the exact 400
validation response or a 200 response whose body serializes some drained
result. -/
theorem handler_core_ok_shape (env : Env) (event : List (String × JValue))
    (r : HttpResponse) (tr : List (String × String))
    (h : handler_core env event = (.ok r, tr)) :
    r = { statusCode := 400,
          headers := [("Content-Type", "application/json")],
          body := json_dumps true (.obj [("error", .str "Missing required field: prompt")]) } ∨
    ∃ result, r = { statusCode := 200,
                    headers := [("Content-Type", "application/json"),
                                ("Access-Control-Allow-Origin", "*")],
                    body := json_dumps false result } := by
  unfold handler_core at h
  repeat' split at h
  all_goals simp only [Prod.mk.injEq] at h
  all_goals first
    | exact Except.noConfusion h.1
    | exact Or.inl (Except.ok.inj h.1).symm
    | exact Or.inr ⟨_, (Except.ok.inj h.1).symm⟩

/-- Claim C1: a decoded payload whose `prompt` is missing (so `get`
returns `None`) or falsy makes `lambda_handler` return exactly the 400
response with the JSON content type and the fixed error body, without
ever invoking the remote client (empty invocation trace). -/
theorem C1_missing_prompt_400 (env : Env) (event : List (String × JValue))
    (body prompt : JValue)
    (hb : parse_body env event = .ok body)
    (hp : pyGet body "prompt" = .ok prompt)
    (hf : pyTruthy prompt = false) :
    lambda_handler env event =
      ({ statusCode := 400,
         headers := [("Content-Type", "application/json")],
         body := "\x7b\"error\": \"Missing required field: prompt\"\x7d" }, []) := by
  unfold lambda_handler handler_core
  simp only [hb, hp, hf]
  rfl

/-- Witness for C1 at the concrete payload `\x7b"prompt": ""\x7d`. -/
theorem C1_missing_prompt_400_witness :
    lambda_handler testEnv [("prompt", JValue.str "")] =
      ({ statusCode := 400,
         headers := [("Content-Type", "application/json")],
         body := "\x7b\"error\": \"Missing required field: prompt\"\x7d" }, []) :=
  C1_missing_prompt_400 testEnv [("prompt", .str "")]
    (.obj [("prompt", .str "")]) (.str "") (by rfl) (by rfl) (by rfl)

/-- Claim C2: whenever the `try` body raises (any failing step), the
handler returns the 500 response carrying the exception's message in a
JSON `error` body, with the JSON content type; by construction
`lambda_handler` is total, so no exception escapes it. -/
theorem C2_exception_500 (env : Env) (event : List (String × JValue))
    (e : String) (tr : List (String × String))
    (h : handler_core env event = (.error e, tr)) :
    lambda_handler env event =
      ({ statusCode := 500,
         headers := [("Content-Type", "application/json")],
         body := json_dumps true (.obj [("error", .str e)]) }, tr) := by
  unfold lambda_handler
  rw [h]

/-- Witness for C2 at a concrete event whose body is not valid JSON. -/
theorem C2_exception_500_witness :
    lambda_handler testEnv [("body", JValue.str "bad")] =
      ({ statusCode := 500,
         headers := [("Content-Type", "application/json")],
         body := "\x7b\"error\": \"Expecting value: line 1 column 1 (char 0)\"\x7d" }, []) :=
  C2_exception_500 testEnv [("body", JValue.str "bad")]
    "Expecting value: line 1 column 1 (char 0)" [] (by rfl)

/-- A fragment without a non-empty chunk leaves the loop accumulator
unchanged. -/
theorem drainStep_skip (env : Env) (init : JValue) (f : Fragment)
    (h : fragBytes f = none) : drainStep env init f = .ok init := by
  cases hc : f.chunk with
  | none => simp [drainStep, hc]
  | some ch =>
    simp only [fragBytes, hc] at h
    split at h
    · rename_i hemp
      simp [drainStep, hc, hemp]
    · exact Option.noConfusion h

/-- A fragment with a non-empty chunk replaces the loop accumulator by the
decoding of that chunk. -/
theorem drainStep_take (env : Env) (init : JValue) (f : Fragment) (bs : List Nat)
    (h : fragBytes f = some bs) :
    drainStep env init f = env.utf8Decode bs >>= env.jsonLoads := by
  cases hc : f.chunk with
  | none => simp [fragBytes, hc] at h
  | some ch =>
    simp only [fragBytes, hc] at h
    split at h
    · exact Option.noConfusion h
    · rename_i hne
      have hbs : ch.bytes.getD [] = bs := Option.some.inj h
      simp only [drainStep, hc]
      rw [if_neg hne, hbs]

/-- Binding a success in `Except` applies the continuation. -/
theorem ok_bind {ε α β : Type} (a : α) (f : α → Except ε β) :
    (Except.ok a >>= f : Except ε β) = f a := rfl

/-- Binding a failure in `Except` propagates the failure. -/
theorem error_bind {ε α β : Type} (e : ε) (f : α → Except ε β) :
    (Except.error e >>= f : Except ε β) = Except.error e := rfl

/-- The streaming loop, started from any accumulator, either sees no
non-empty chunk and returns the accumulator, or returns the decoding of
the last non-empty chunk. -/
theorem drain_last_nonempty (env : Env) (frags : List Fragment) :
    ∀ (init r : JValue),
      List.foldlM (drainStep env) init frags = Except.ok r →
      ((nonEmptyChunks frags = [] ∧ r = init) ∨
       (∃ bs s, (nonEmptyChunks frags).getLast? = some bs ∧
                env.utf8Decode bs = Except.ok s ∧ env.jsonLoads s = Except.ok r)) := by
  induction frags with
  | nil =>
    intro init r h
    exact Or.inl ⟨rfl, (Except.ok.inj h).symm⟩
  | cons f fs ih =>
    intro init r h
    rw [List.foldlM_cons] at h
    cases hfb : fragBytes f with
    | none =>
      rw [drainStep_skip env init f hfb] at h
      have hstep : nonEmptyChunks (f :: fs) = nonEmptyChunks fs := by
        simp [nonEmptyChunks, List.filterMap_cons, hfb]
      have h' : List.foldlM (drainStep env) init fs = Except.ok r := h
      rcases ih init r h' with ⟨hne, hr⟩ | ⟨bs, s, hlast, hdec, hload⟩
      · exact Or.inl ⟨by rw [hstep, hne], hr⟩
      · exact Or.inr ⟨bs, s, by rw [hstep]; exact hlast, hdec, hload⟩
    | some bs =>
      rw [drainStep_take env init f bs hfb] at h
      have hstep : nonEmptyChunks (f :: fs) = bs :: nonEmptyChunks fs := by
        simp [nonEmptyChunks, List.filterMap_cons, hfb]
      cases hdec : env.utf8Decode bs with
      | error e =>
        rw [hdec, error_bind, error_bind] at h
        exact Except.noConfusion h
      | ok s =>
        rw [hdec, ok_bind] at h
        cases hload : env.jsonLoads s with
        | error e =>
          rw [hload, error_bind] at h
          exact Except.noConfusion h
        | ok v =>
          rw [hload, ok_bind] at h
          have h' : List.foldlM (drainStep env) v fs = Except.ok r := h
          rcases ih v r h' with ⟨hne, hr⟩ | ⟨bs', s', hlast, hdec', hload'⟩
          · refine Or.inr ⟨bs, s, ?_, hdec, by rw [hload, hr]⟩
            rw [hstep, hne]
            rfl
          · refine Or.inr ⟨bs', s', ?_, hdec', hload'⟩
            rw [hstep]
            cases hcc : nonEmptyChunks fs with
            | nil => rw [hcc] at hlast; exact Option.noConfusion hlast
            | cons c cs => rw [hcc] at hlast; rw [List.getLast?_cons_cons]; exact hlast

/-- Claim C3: when the streaming drain of a `'completion'` sequence
succeeds, the result equals the JSON decoding of the last fragment
carrying a non-empty `'bytes'` chunk — every earlier chunk is discarded —
and it is the empty mapping when no fragment carries a non-empty chunk. -/
theorem C3_last_chunk_wins (env : Env) (frags : List Fragment) (r : JValue)
    (h : drain env frags = Except.ok r) :
    (nonEmptyChunks frags = [] ∧ r = JValue.obj []) ∨
    (∃ bs s, (nonEmptyChunks frags).getLast? = some bs ∧
             env.utf8Decode bs = Except.ok s ∧ env.jsonLoads s = Except.ok r) :=
  drain_last_nonempty env frags (JValue.obj []) r h

/-- Witness for C3: three fragments where only the last carries a
non-empty chunk, holding the bytes of the done-result document. -/
theorem C3_last_chunk_wins_witness :
    (nonEmptyChunks [⟨some ⟨none⟩⟩, ⟨none⟩,
                     ⟨some ⟨some (strBytes "\x7b\"result\": \"done\"\x7d")⟩⟩] = [] ∧
       JValue.obj [("result", JValue.str "done")] = JValue.obj []) ∨
    (∃ bs s, (nonEmptyChunks [⟨some ⟨none⟩⟩, ⟨none⟩,
                              ⟨some ⟨some (strBytes "\x7b\"result\": \"done\"\x7d")⟩⟩]).getLast? = some bs ∧
             testEnv.utf8Decode bs = Except.ok s ∧
             testEnv.jsonLoads s = Except.ok (JValue.obj [("result", JValue.str "done")])) :=
  C3_last_chunk_wins testEnv
    [⟨some ⟨none⟩⟩, ⟨none⟩, ⟨some ⟨some (strBytes "\x7b\"result\": \"done\"\x7d")⟩⟩]
    (JValue.obj [("result", JValue.str "done")]) (by rfl)

/-- Claim C4: with a truthy `prompt`, the handler invokes the remote
client exactly once, passing the configured runtime ARN and the
JSON serialization (default `ensure_ascii`) of the nested
`input/prompt/permission_mode/allowed_tools` payload, where the two
optional fields are whatever the payload's `.get` returned — the
caller's values unvalidated when present, `acceptEdits` and the fixed
eight-tool list when absent. -/
theorem C4_upstream_request (env : Env) (event : List (String × JValue))
    (body prompt permission_mode allowed_tools : JValue) (arn : String)
    (hb : parse_body env event = Except.ok body)
    (hp : pyGet body "prompt" = Except.ok prompt)
    (ht : pyTruthy prompt = true)
    (hpm : pyGetD body "permission_mode" (.str "acceptEdits") = Except.ok permission_mode)
    (hat : pyGetD body "allowed_tools" (.str defaultAllowedTools) = Except.ok allowed_tools)
    (harn : env.environ "AGENTCORE_RUNTIME_ARN" = Except.ok arn) :
    (lambda_handler env event).2 =
      [(arn, json_dumps true (agentcore_payload prompt permission_mode allowed_tools))] := by
  rw [lambda_handler_trace]
  unfold handler_core
  simp only [hb, hp, ht, hpm, hat, harn, Bool.not_true, Bool.false_eq_true, if_false]
  split
  · rfl
  · split <;> rfl

/-- Witness for C4 at the concrete payload `\x7b"prompt": "hi"\x7d` with both
optional fields absent: the defaults appear in the serialized request. -/
theorem C4_upstream_request_witness :
    (lambda_handler testEnv [("prompt", JValue.str "hi")]).2 =
      [("arn:aws:bedrock:test",
        "\x7b\"input\": \x7b\"prompt\": \"hi\", \"permission_mode\": \"acceptEdits\", \"allowed_tools\": \"Bash,Read,Write,Replace,Search,List,WebFetch,AskFollowup\"\x7d\x7d")] :=
  C4_upstream_request testEnv [("prompt", JValue.str "hi")]
    (.obj [("prompt", .str "hi")]) (.str "hi") (.str "acceptEdits") (.str defaultAllowedTools)
    "arn:aws:bedrock:test" (by rfl) (by rfl) (by rfl) (by rfl) (by rfl) (by rfl)

/-- The handler's outcome depends on the event only through the decoded
payload. -/
theorem handler_parse_congr (env : Env) (e1 e2 : List (String × JValue))
    (h : parse_body env e1 = parse_body env e2) :
    lambda_handler env e1 = lambda_handler env e2 := by
  unfold lambda_handler handler_core
  rw [h]

/-- Claim C5: an envelope carrying the base64 encoding of a document with
`isBase64Encoded` true decodes to the same payload — and hence, the
remote behavior being part of the fixed environment, produces the same
response — as the envelope carrying the document directly. -/
theorem C5_base64_equivalence (env : Env) (s b64s : String)
    (hdec : env.b64decode b64s = Except.ok s) :
    lambda_handler env [("body", JValue.str b64s), ("isBase64Encoded", JValue.bool true)] =
    lambda_handler env [("body", JValue.str s)] := by
  apply handler_parse_congr
  simp [parse_body, pyStrArg, pyTruthy, hdec, ok_bind]
  rfl

/-- Witness for C5 at the base64 encoding of `\x7b"prompt": "hi"\x7d`. -/
theorem C5_base64_equivalence_witness :
    lambda_handler testEnv [("body", JValue.str "eyJwcm9tcHQiOiAiaGkifQ=="),
                            ("isBase64Encoded", JValue.bool true)] =
    lambda_handler testEnv [("body", JValue.str "\x7b\"prompt\": \"hi\"\x7d")] :=
  C5_base64_equivalence testEnv "\x7b\"prompt\": \"hi\"\x7d" "eyJwcm9tcHQiOiAiaGkifQ==" (by rfl)

/-- With `ensure_ascii=False`, every character at or above `0x7f` is kept
literally by the serializer's escaper. -/
theorem escapeChar_nonascii (c : Char) (hc : 127 ≤ c.toNat) :
    escapeChar false c = String.singleton c := by
  have h34 : ¬(c = '"') := fun h => absurd (h ▸ hc) (by decide)
  have h92 : ¬(c = '\\') := fun h => absurd (h ▸ hc) (by decide)
  have h10 : ¬(c = '\n') := fun h => absurd (h ▸ hc) (by decide)
  have h13 : ¬(c = '\r') := fun h => absurd (h ▸ hc) (by decide)
  have h09 : ¬(c = '\t') := fun h => absurd (h ▸ hc) (by decide)
  have h08 : ¬(c.toNat = 8) := by omega
  have h12 : ¬(c.toNat = 12) := by omega
  have h32 : ¬(c.toNat < 32) := by omega
  simp [escapeChar, h34, h92, h10, h13, h09, h08, h12, h32]

/-- Claim C6: on the success path (truthy prompt, remote call and drain
succeed), the response is 200 with both the JSON content type and the
open-CORS header, the body is the `ensure_ascii=False` serialization of
the drained result, and that serialization keeps every non-ASCII
character literal (unescaped). -/
theorem C6_success_response (env : Env) (event : List (String × JValue))
    (body prompt permission_mode allowed_tools : JValue) (arn : String)
    (response : RemoteResponse) (result : JValue)
    (hb : parse_body env event = Except.ok body)
    (hp : pyGet body "prompt" = Except.ok prompt)
    (ht : pyTruthy prompt = true)
    (hpm : pyGetD body "permission_mode" (.str "acceptEdits") = Except.ok permission_mode)
    (hat : pyGetD body "allowed_tools" (.str defaultAllowedTools) = Except.ok allowed_tools)
    (harn : env.environ "AGENTCORE_RUNTIME_ARN" = Except.ok arn)
    (hinv : env.invoke arn (json_dumps true (agentcore_payload prompt permission_mode allowed_tools)) = Except.ok response)
    (hres : (match response.completion with
             | some frags => drain env frags
             | none => Except.ok (JValue.obj [])) = Except.ok result) :
    (lambda_handler env event).1 =
      { statusCode := 200,
        headers := [("Content-Type", "application/json"),
                    ("Access-Control-Allow-Origin", "*")],
        body := json_dumps false result } ∧
    (∀ c : Char, 127 ≤ c.toNat → escapeChar false c = String.singleton c) := by
  refine ⟨?_, fun c hc => escapeChar_nonascii c hc⟩
  unfold lambda_handler handler_core
  simp only [hb, hp, ht, hpm, hat, harn, hinv, hres, Bool.not_true, Bool.false_eq_true, if_false]

/-- The environment whose remote client streams one chunk holding the
done-result document. -/
def doneEnv : Env :=
  mkEnv (.ok { completion := some [⟨some ⟨some (strBytes "\x7b\"result\": \"done\"\x7d")⟩⟩],
               rest := [] })

/-- Witness for C6 at a concrete prompt and streamed response. -/
theorem C6_success_response_witness :
    (lambda_handler doneEnv [("prompt", JValue.str "hi")]).1 =
      { statusCode := 200,
        headers := [("Content-Type", "application/json"),
                    ("Access-Control-Allow-Origin", "*")],
        body := "\x7b\"result\": \"done\"\x7d" } ∧
    (∀ c : Char, 127 ≤ c.toNat → escapeChar false c = String.singleton c) :=
  C6_success_response doneEnv [("prompt", JValue.str "hi")]
    (.obj [("prompt", .str "hi")]) (.str "hi") (.str "acceptEdits") (.str defaultAllowedTools)
    "arn:aws:bedrock:test"
    { completion := some [⟨some ⟨some (strBytes "\x7b\"result\": \"done\"\x7d")⟩⟩], rest := [] }
    (.obj [("result", .str "done")])
    (by rfl) (by rfl) (by rfl) (by rfl) (by rfl) (by rfl) (by rfl) (by rfl)

/-- Claim C7: `lambda_handler` is a total function into the fixed
`statusCode`/`headers`/`body` shape — exactly one outbound response per
invocation on every exit path — with a status in 200/400/500, and a body
that is the JSON serialization of some value. -/
theorem C7_response_shape (env : Env) (event : List (String × JValue)) :
    ((lambda_handler env event).1.statusCode = 200 ∨
     (lambda_handler env event).1.statusCode = 400 ∨
     (lambda_handler env event).1.statusCode = 500) ∧
    (∃ ensureAscii v, (lambda_handler env event).1.body = json_dumps ensureAscii v) := by
  rcases h : handler_core env event with ⟨a, tr⟩
  cases a with
  | error e =>
    have hr : lambda_handler env event =
        ({ statusCode := 500,
           headers := [("Content-Type", "application/json")],
           body := json_dumps true (.obj [("error", .str e)]) }, tr) := by
      unfold lambda_handler; rw [h]
    rw [hr]
    exact ⟨Or.inr (Or.inr rfl), true, .obj [("error", .str e)], rfl⟩
  | ok r =>
    have hr : lambda_handler env event = (r, tr) := by
      unfold lambda_handler; rw [h]
    rw [hr]
    rcases handler_core_ok_shape env event r tr h with h400 | ⟨result, h200⟩
    · rw [h400]
      exact ⟨Or.inr (Or.inl rfl),
             true, .obj [("error", .str "Missing required field: prompt")], rfl⟩
    · rw [h200]
      exact ⟨Or.inl rfl, false, result, rfl⟩

/-- Claim C8 counterexample: with `AWS_REGION` set but
`AGENTCORE_RUNTIME_ARN` absent, a request with a valid prompt receives a
per-request 500 response carrying the `KeyError` text of the missing
variable — refuting that a missing runtime identifier cannot surface as
a per-request 500. -/
theorem C8_lazy_arn_counterexample :
    lambda_handler noArnEnv [("prompt", JValue.str "hi")] =
      ({ statusCode := 500,
         headers := [("Content-Type", "application/json")],
         body := "\x7b\"error\": \"\x27AGENTCORE_RUNTIME_ARN\x27\"\x7d" }, []) := by
  rfl

/-- Claim C8 (amended): the region identifier is read once at
module import, where its absence is fatal before any request is served; the
runtime identifier, however, is read again on every request inside the
handler's `try` block, and its absence produces that request's 500
response, with the remote client never invoked. -/
theorem C8_config_reads_amended
    (environ0 : String → Except String String) (m : String)
    (hreg : environ0 "AWS_REGION" = Except.error m)
    (env : Env) (event : List (String × JValue))
    (body prompt permission_mode allowed_tools : JValue) (e : String)
    (hb : parse_body env event = Except.ok body)
    (hp : pyGet body "prompt" = Except.ok prompt)
    (ht : pyTruthy prompt = true)
    (hpm : pyGetD body "permission_mode" (.str "acceptEdits") = Except.ok permission_mode)
    (hat : pyGetD body "allowed_tools" (.str defaultAllowedTools) = Except.ok allowed_tools)
    (harn : env.environ "AGENTCORE_RUNTIME_ARN" = Except.error e) :
    client environ0 = Except.error m ∧
    lambda_handler env event =
      ({ statusCode := 500,
         headers := [("Content-Type", "application/json")],
         body := json_dumps true (.obj [("error", .str e)]) }, []) := by
  refine ⟨hreg, ?_⟩
  unfold lambda_handler handler_core
  simp only [hb, hp, ht, hpm, hat, harn, Bool.not_true, Bool.false_eq_true, if_false]

/-- Witness for the amended C8: an import-time environment lacking
`AWS_REGION`, and a request served by `noArnEnv`. -/
theorem C8_config_reads_amended_witness :
    client (fun _ => Except.error "\x27AWS_REGION\x27") = Except.error "\x27AWS_REGION\x27" ∧
    lambda_handler noArnEnv [("prompt", JValue.str "hi")] =
      ({ statusCode := 500,
         headers := [("Content-Type", "application/json")],
         body := "\x7b\"error\": \"\x27AGENTCORE_RUNTIME_ARN\x27\"\x7d" }, []) :=
  C8_config_reads_amended (fun _ => Except.error "\x27AWS_REGION\x27") "\x27AWS_REGION\x27"
    (by rfl) noArnEnv [("prompt", JValue.str "hi")]
    (.obj [("prompt", .str "hi")]) (.str "hi") (.str "acceptEdits") (.str defaultAllowedTools)
    "\x27AGENTCORE_RUNTIME_ARN\x27"
    (by rfl) (by rfl) (by rfl) (by rfl) (by rfl) (by rfl)

/-- Claim C9: when the remote response has no `'completion'` key, the
drained result stays the empty mapping and the 200 body is exactly
`\x7b\x7d`; the response's other fields (`rest`, left arbitrary by the
hypotheses) are silently discarded. -/
theorem C9_no_completion_empty (env : Env) (event : List (String × JValue))
    (body prompt permission_mode allowed_tools : JValue) (arn : String)
    (response : RemoteResponse)
    (hb : parse_body env event = Except.ok body)
    (hp : pyGet body "prompt" = Except.ok prompt)
    (ht : pyTruthy prompt = true)
    (hpm : pyGetD body "permission_mode" (.str "acceptEdits") = Except.ok permission_mode)
    (hat : pyGetD body "allowed_tools" (.str defaultAllowedTools) = Except.ok allowed_tools)
    (harn : env.environ "AGENTCORE_RUNTIME_ARN" = Except.ok arn)
    (hinv : env.invoke arn (json_dumps true (agentcore_payload prompt permission_mode allowed_tools)) = Except.ok response)
    (hnone : response.completion = none) :
    lambda_handler env event =
      ({ statusCode := 200,
         headers := [("Content-Type", "application/json"),
                     ("Access-Control-Allow-Origin", "*")],
         body := "\x7b\x7d" },
       [(arn, json_dumps true (agentcore_payload prompt permission_mode allowed_tools))]) := by
  unfold lambda_handler handler_core
  simp only [hb, hp, ht, hpm, hat, harn, hinv, hnone, Bool.not_true, Bool.false_eq_true,
             if_false]
  rfl

/-- Witness for C9: the basic environment's remote client answers without
a `'completion'` key. -/
theorem C9_no_completion_empty_witness :
    lambda_handler testEnv [("prompt", JValue.str "hi")] =
      ({ statusCode := 200,
         headers := [("Content-Type", "application/json"),
                     ("Access-Control-Allow-Origin", "*")],
         body := "\x7b\x7d" },
       [("arn:aws:bedrock:test",
         "\x7b\"input\": \x7b\"prompt\": \"hi\", \"permission_mode\": \"acceptEdits\", \"allowed_tools\": \"Bash,Read,Write,Replace,Search,List,WebFetch,AskFollowup\"\x7d\x7d")]) :=
  C9_no_completion_empty testEnv [("prompt", JValue.str "hi")]
    (.obj [("prompt", .str "hi")]) (.str "hi") (.str "acceptEdits") (.str defaultAllowedTools)
    "arn:aws:bedrock:test" { completion := none, rest := [] }
    (by rfl) (by rfl) (by rfl) (by rfl) (by rfl) (by rfl) (by rfl) (by rfl)

/-- Claim C10: the 400 and 500 responses carry only the JSON content-type
header, while the 200 response carries exactly the content-type header
and the open-CORS header. -/
theorem C10_cors_only_success (env : Env) (event : List (String × JValue)) :
    (((lambda_handler env event).1.statusCode = 400 ∨
      (lambda_handler env event).1.statusCode = 500) →
      (lambda_handler env event).1.headers = [("Content-Type", "application/json")]) ∧
    ((lambda_handler env event).1.statusCode = 200 →
      (lambda_handler env event).1.headers =
        [("Content-Type", "application/json"), ("Access-Control-Allow-Origin", "*")]) := by
  rcases h : handler_core env event with ⟨a, tr⟩
  cases a with
  | error e =>
    have hr : lambda_handler env event =
        ({ statusCode := 500,
           headers := [("Content-Type", "application/json")],
           body := json_dumps true (.obj [("error", .str e)]) }, tr) := by
      unfold lambda_handler; rw [h]
    rw [hr]
    exact ⟨fun _ => rfl, fun hc => absurd hc (by simp)⟩
  | ok r =>
    have hr : lambda_handler env event = (r, tr) := by
      unfold lambda_handler; rw [h]
    rw [hr]
    rcases handler_core_ok_shape env event r tr h with h400 | ⟨result, h200⟩
    · rw [h400]
      exact ⟨fun _ => rfl, fun hc => absurd hc (by simp)⟩
    · rw [h200]
      exact ⟨fun hc => absurd hc (by simp), fun _ => rfl⟩

/-- Witness for C10 at a concrete successful request. -/
theorem C10_cors_only_success_witness :
    (((lambda_handler testEnv [("prompt", JValue.str "hi")]).1.statusCode = 400 ∨
      (lambda_handler testEnv [("prompt", JValue.str "hi")]).1.statusCode = 500) →
      (lambda_handler testEnv [("prompt", JValue.str "hi")]).1.headers =
        [("Content-Type", "application/json")]) ∧
    ((lambda_handler testEnv [("prompt", JValue.str "hi")]).1.statusCode = 200 →
      (lambda_handler testEnv [("prompt", JValue.str "hi")]).1.headers =
        [("Content-Type", "application/json"), ("Access-Control-Allow-Origin", "*")]) :=
  C10_cors_only_success testEnv [("prompt", JValue.str "hi")]

end LambdaAdapter
